import Mathlib

/-!
Shallow embedding of the supper-club event-registration app (src/app.py).

The app is a single-process Flask server over a SQLite store with three
tables (events, registrations, posts) and a boolean admin flag in the
session. Every route handler is embedded as a pure function from the
session, the store and the parsed form to the resulting store and an
outcome (a response plus the resulting session, or an uncaught Python
exception when `int(...)` raises `ValueError`).

Modelling choices, matching the source:
  * `request.form.get(field, default)` is an `Option String` per field,
    read with `Option.getD`.
  * Python `str.strip()` is `pyStrip` (drop whitespace at both ends).
  * Python `int(s)` is `pyIntOfString` (strip, optional sign, digits);
    a failing parse is an uncaught exception (`Outcome.uncaught`),
    mirroring the unhandled `ValueError`.
  * SQLite auto-increment ids and `created_at DEFAULT CURRENT_TIMESTAMP`
    are a fresh-id counter and a strictly monotone clock in the store.
  * `flash(msg, cat)` appends to the session's flash queue (Flask keeps
    flashes in the session).
  * `hmac.compare_digest(a, b)` on strings decides string equality; the
    constant-time aspect has no observable counterpart here.
-/

namespace SupperClub

/-- One row of the `events` table. `time`, `charity`, `charity_url` and
`suggested_price` are nullable (`NULL` is `none`). -/
structure Event where
  id : Nat
  title : String
  date : String
  time : Option String
  location : String
  menu_description : String
  capacity : Int
  charity : Option String
  charity_url : Option String
  suggested_price : Option String
deriving Repr, DecidableEq

/-- One row of the `registrations` table; `created_at` is the insertion
timestamp (a monotone clock tick). -/
structure Registration where
  id : Nat
  event_id : Nat
  name : String
  phone : String
  dietary_restrictions : String
  num_guests : Int
  created_at : Nat
deriving Repr, DecidableEq

/-- One row of the `posts` table; `event_id` is a nullable reference,
stored exactly as submitted (Python `int(...)`), so it may dangle. -/
structure Post where
  id : Nat
  title : String
  body : String
  event_id : Option Int
  created_at : Nat
deriving Repr, DecidableEq

/-- The relational store: the three tables plus the auto-increment
counters and the timestamp clock. -/
structure Store where
  events : List Event
  registrations : List Registration
  posts : List Post
  nextEventId : Nat
  nextRegId : Nat
  nextPostId : Nat
  clock : Nat
deriving Repr, DecidableEq

/-- The browser session: the admin elevation flag (`session["admin"]`)
and the queued flash notices (message, category), which Flask also keeps
in the session. -/
structure Session where
  admin : Bool
  flashes : List (String × String)
deriving Repr, DecidableEq

/-- Flask `flash(msg, category)`: queue a one-shot notice in the session. -/
def flash (s : Session) (msg cat : String) : Session :=
  { s with flashes := s.flashes ++ [(msg, cat)] }

/-- The response part of a handler's result. -/
inductive Response where
  | redirectIndex
  | redirectAdmin
  | redirectConfirmation (reg_id : Nat)
  | renderIndex (event : Option Event) (spots_left : Option Int)
  | csvDownload (filename : String) (lines : List String)
deriving Repr, DecidableEq

/-- A handler either returns normally (new session and response) or dies
with an uncaught exception (Python `ValueError` from `int(...)`), in
which case no response is produced and nothing was committed. -/
inductive Outcome where
  | ok (sess : Session) (resp : Response)
  | uncaught
deriving Repr, DecidableEq

/-- Python `str.strip()`: remove whitespace from both ends. -/
def pyStrip (s : String) : String :=
  String.mk (((s.data.dropWhile Char.isWhitespace).reverse.dropWhile Char.isWhitespace).reverse)

/-- Digits-to-number accumulator for `pyIntOfString`. -/
def digitsToNat (cs : List Char) : Nat :=
  cs.foldl (fun acc c => acc * 10 + (c.toNat - ('0').toNat)) 0

/-- Python `int(s)` on a string: strip whitespace, optional sign, then
decimal digits; anything else raises `ValueError` (here `none`). -/
def pyIntOfString (s : String) : Option Int :=
  match (pyStrip s).data with
  | [] => none
  | c :: rest =>
    let digits : List Char :=
      if c = '-' ∨ c = '+' then rest else c :: rest
    let sign : Int := if c = '-' then -1 else 1
    if digits.isEmpty then none
    else if digits.all Char.isDigit then some (sign * (digitsToNat digits : Int))
    else none

/-- Lexicographic order on character lists, by code point — SQLite's
byte-wise comparison of TEXT values (identical for the ASCII ISO dates
the app stores). -/
def charListLt : List Char → List Char → Bool
  | [], [] => false
  | [], _ :: _ => true
  | _ :: _, [] => false
  | a :: as, b :: bs =>
    if a.toNat < b.toNat then true
    else if b.toNat < a.toNat then false
    else charListLt as bs

/-- SQLite `<` on TEXT values. -/
def textLt (a b : String) : Bool := charListLt a.data b.data

/-- SQLite `<=` (and hence `>=`) on TEXT values. -/
def textLe (a b : String) : Bool := !(textLt b a)

/-- Fold step selecting the first row of minimal date. -/
def nextEventStep (acc : Option Event) (e : Event) : Option Event :=
  match acc with
  | none => some e
  | some b => if textLt e.date b.date then some e else acc

/-- The query `SELECT * FROM events WHERE date >= today ORDER BY date ASC LIMIT 1`:
the first stored event of minimal date among those with `date ≥ today`. -/
def get_next_event (st : Store) (today : String) : Option Event :=
  (st.events.filter (fun e => textLe today e.date)).foldl nextEventStep none

/-- Sum of `num_guests` over a registration list restricted to one event. -/
def regCount (regs : List Registration) (event_id : Nat) : Int :=
  ((regs.filter (fun r => r.event_id == event_id)).map (fun r => r.num_guests)).sum

/-- The query `SELECT COALESCE(SUM(num_guests), 0) FROM registrations WHERE event_id = ?`:
an event with no registrations contributes zero. -/
def get_registration_count (st : Store) (event_id : Nat) : Int :=
  regCount st.registrations event_id

/-- Form data of `POST /register`; each field may be absent. -/
structure RegisterForm where
  name : Option String
  phone : Option String
  dietary_restrictions : Option String
  num_guests : Option String
deriving Repr, DecidableEq

/-- Python `int(request.form.get("num_guests", 1))`: an absent field uses
the integer default `1`; a present field is parsed and may raise. -/
def parseGuests (f : RegisterForm) : Option Int :=
  match f.num_guests with
  | none => some 1
  | some s => pyIntOfString s

/-- Handler of `GET /`: render the next event and its freshly computed spots_left
(`None` when there is no upcoming event). Read-only. -/
def index (sess : Session) (st : Store) (today : String) : Store × Outcome :=
  match get_next_event st today with
  | none => (st, .ok sess (.renderIndex none none))
  | some event =>
      (st, .ok sess (.renderIndex (some event)
        (some (event.capacity - get_registration_count st event.id))))

/-- Handler of `POST /register`: the public registration flow of src/app.py
(lines 125-156), validations in source order; on success, one row is
inserted and the request redirects to the confirmation view keyed by the
new row's id (`cursor.lastrowid`). -/
def register (sess : Session) (st : Store) (f : RegisterForm) (today : String) :
    Store × Outcome :=
  match get_next_event st today with
  | none =>
      (st, .ok (flash sess "No upcoming event to register for." "error") .redirectIndex)
  | some event =>
      let name := pyStrip (f.name.getD "")
      let phone := pyStrip (f.phone.getD "")
      let dietary := pyStrip (f.dietary_restrictions.getD "")
      match parseGuests f with
      | none => (st, .uncaught)
      | some num_guests =>
        if name = "" ∨ phone = "" then
          (st, .ok (flash sess "Name and phone are required." "error") .redirectIndex)
        else if num_guests < 1 then
          (st, .ok (flash sess "Must register at least 1 guest." "error") .redirectIndex)
        else
          let spots_left := event.capacity - get_registration_count st event.id
          if num_guests > spots_left then
            (st, .ok (flash sess "Not enough spots remaining." "error") .redirectIndex)
          else
            let reg : Registration :=
              { id := st.nextRegId, event_id := event.id, name := name, phone := phone
                dietary_restrictions := dietary, num_guests := num_guests
                created_at := st.clock }
            ({ st with
                registrations := st.registrations ++ [reg]
                nextRegId := st.nextRegId + 1
                clock := st.clock + 1 },
             .ok sess (.redirectConfirmation st.nextRegId))

/-- The decorator `@admin_required`: run the wrapped handler only when the session
carries the admin flag; otherwise redirect to the admin landing page
without executing it. -/
def admin_required (handler : Session → Store → Store × Outcome)
    (sess : Session) (st : Store) : Store × Outcome :=
  if sess.admin then handler sess st else (st, .ok sess .redirectAdmin)

/-- Form data of `POST /admin/login`. -/
structure LoginForm where
  password : Option String
deriving Repr, DecidableEq

/-- Handler of `POST /admin/login`: `hmac.compare_digest(password, ADMIN_PASSWORD)`
decides string equality with the configured secret; on match the admin
flag is set and a success notice queued, on mismatch an error notice is
queued and the flag is not touched. The configured secret is the
`adminPassword` parameter. -/
def admin_login (adminPassword : String) (f : LoginForm)
    (sess : Session) (st : Store) : Store × Outcome :=
  let password := f.password.getD ""
  if password = adminPassword then
    (st, .ok (flash { sess with admin := true } "Logged in." "success") .redirectAdmin)
  else
    (st, .ok (flash sess "Incorrect password." "error") .redirectAdmin)

/-- Handler of `GET /admin/logout` (admin-guarded): `session.clear()` wipes the whole
session (flag and queued flashes), then a success notice is queued. -/
def admin_logout : Session → Store → Store × Outcome :=
  admin_required (fun _ st =>
    (st, .ok (flash { admin := false, flashes := [] } "Logged out." "success") .redirectAdmin))

/-- Form data of the event create/update routes; each field may be absent. -/
structure EventForm where
  title : Option String
  date : Option String
  time : Option String
  location : Option String
  menu_description : Option String
  capacity : Option String
  charity : Option String
  charity_url : Option String
  suggested_price : Option String
deriving Repr, DecidableEq

/-- Python `int(request.form.get("capacity", 0))`: an absent field uses the
integer default `0`; a present field is parsed and may raise. -/
def parseCapacity (f : EventForm) : Option Int :=
  match f.capacity with
  | none => some 0
  | some s => pyIntOfString s

/-- Python `s or None` on a stripped string: store blank as NULL. -/
def orNone (s : String) : Option String :=
  if s = "" then none else some s

/-- Handler of `POST /admin/events` (admin-guarded): validation is Python
`all([title, date, location, menu_description, capacity])`, so the four
text fields must be non-empty after stripping and capacity must be a
non-zero integer (truthiness, not positivity); blank optional fields are
stored as NULL. -/
def create_event (f : EventForm) : Session → Store → Store × Outcome :=
  admin_required (fun sess st =>
    let title := pyStrip (f.title.getD "")
    let event_date := pyStrip (f.date.getD "")
    let event_time := pyStrip (f.time.getD "")
    let location := pyStrip (f.location.getD "")
    let menu_description := pyStrip (f.menu_description.getD "")
    match parseCapacity f with
    | none => (st, .uncaught)
    | some capacity =>
      let charity := pyStrip (f.charity.getD "")
      let charity_url := pyStrip (f.charity_url.getD "")
      let suggested_price := pyStrip (f.suggested_price.getD "")
      if title = "" ∨ event_date = "" ∨ location = "" ∨ menu_description = "" ∨ capacity = 0 then
        (st, .ok (flash sess "All fields are required." "error") .redirectAdmin)
      else
        let ev : Event :=
          { id := st.nextEventId, title := title, date := event_date
            time := orNone event_time, location := location
            menu_description := menu_description, capacity := capacity
            charity := orNone charity, charity_url := orNone charity_url
            suggested_price := orNone suggested_price }
        ({ st with events := st.events ++ [ev], nextEventId := st.nextEventId + 1 },
         .ok (flash sess "Event created." "success") .redirectAdmin))

/-- Handler of `POST /admin/events/<id>` (admin-guarded): overwrite every field of
the matching event with the submitted values, with no required-field
re-check; a missing id updates nothing. -/
def update_event (event_id : Nat) (f : EventForm) : Session → Store → Store × Outcome :=
  admin_required (fun sess st =>
    let title := pyStrip (f.title.getD "")
    let event_date := pyStrip (f.date.getD "")
    let event_time := pyStrip (f.time.getD "")
    let location := pyStrip (f.location.getD "")
    let menu_description := pyStrip (f.menu_description.getD "")
    match parseCapacity f with
    | none => (st, .uncaught)
    | some capacity =>
      let charity := pyStrip (f.charity.getD "")
      let charity_url := pyStrip (f.charity_url.getD "")
      let suggested_price := pyStrip (f.suggested_price.getD "")
      ({ st with
          events := st.events.map (fun e =>
            if e.id == event_id then
              { e with title := title, date := event_date, time := orNone event_time
                       location := location, menu_description := menu_description
                       capacity := capacity, charity := orNone charity
                       charity_url := orNone charity_url
                       suggested_price := orNone suggested_price }
            else e) },
       .ok (flash sess "Event updated." "success") .redirectAdmin))

/-- Handler of `POST /admin/events/<id>/delete` (admin-guarded): delete the event's
registrations, then the event, in one transaction; posts are not touched
(the spec states a post's reference simply dangles). -/
def delete_event (event_id : Nat) : Session → Store → Store × Outcome :=
  admin_required (fun sess st =>
    ({ st with
        registrations := st.registrations.filter (fun r => !(r.event_id == event_id))
        events := st.events.filter (fun e => !(e.id == event_id)) },
     .ok (flash sess "Event deleted." "success") .redirectAdmin))

/-- Form data of `POST /admin/registrations/<id>`. -/
structure RegUpdateForm where
  name : Option String
  phone : Option String
  num_guests : Option String
  dietary_restrictions : Option String
deriving Repr, DecidableEq

/-- Python `int(request.form.get("num_guests", 1))` for the admin update route. -/
def parseUpdateGuests (f : RegUpdateForm) : Option Int :=
  match f.num_guests with
  | none => some 1
  | some s => pyIntOfString s

/-- Handler of `POST /admin/registrations/<id>` (admin-guarded): overwrite
name/phone/num_guests/dietary of the matching row, with no re-validation
against the event's capacity. -/
def update_registration (reg_id : Nat) (f : RegUpdateForm) : Session → Store → Store × Outcome :=
  admin_required (fun sess st =>
    let name := pyStrip (f.name.getD "")
    let phone := pyStrip (f.phone.getD "")
    match parseUpdateGuests f with
    | none => (st, .uncaught)
    | some num_guests =>
      let dietary := pyStrip (f.dietary_restrictions.getD "")
      ({ st with
          registrations := st.registrations.map (fun r =>
            if r.id == reg_id then
              { r with name := name, phone := phone, num_guests := num_guests
                       dietary_restrictions := dietary }
            else r) },
       .ok (flash sess "Guest updated." "success") .redirectAdmin))

/-- Handler of `POST /admin/registrations/<id>/delete` (admin-guarded). -/
def delete_registration (reg_id : Nat) : Session → Store → Store × Outcome :=
  admin_required (fun sess st =>
    ({ st with registrations := st.registrations.filter (fun r => !(r.id == reg_id)) },
     .ok (flash sess "Guest removed." "success") .redirectAdmin))

/-- The query `SELECT title FROM events WHERE id = ?`: the first stored
event with that id. -/
def findEvent (st : Store) (event_id : Nat) : Option Event :=
  st.events.find? (fun e => e.id == event_id)

/-- Stable insertion into a list ordered by `created_at` ascending. -/
def insertByTime (r : Registration) : List Registration → List Registration
  | [] => [r]
  | x :: xs => if x.created_at ≤ r.created_at then x :: insertByTime r xs else r :: x :: xs

/-- SQLite `ORDER BY created_at` ascending (stable). -/
def orderByCreatedAt (regs : List Registration) : List Registration :=
  regs.foldr insertByTime []

/-- One field of a `csv.writer` row: quote and double the quotes when the
value contains a comma, a quote or a line break. -/
def csvField (s : String) : String :=
  if s.data.any (fun c => c = ',' ∨ c = '"' ∨ c = '\n' ∨ c = '\x0d') then
    "\"" ++ String.mk (s.data.foldr (fun c acc => if c = '"' then '"' :: '"' :: acc else c :: acc) []) ++ "\""
  else s

/-- One `csv.writer` row: comma-separated escaped fields. -/
def csvRow (fields : List String) : String :=
  String.intercalate "," (fields.map csvField)

/-- The fixed header row written by the export. -/
def csvHeader : String :=
  csvRow ["Name", "Phone", "Guests", "Dietary"]

/-- The data row written for one registration. -/
def csvRegRow (r : Registration) : String :=
  csvRow [r.name, r.phone, toString r.num_guests, r.dietary_restrictions]

/-- Python `csv.writer` terminates every row with CRLF; the body is the
concatenation of the terminated rows. -/
def csvBody (lines : List String) : String :=
  String.join (lines.map (fun l => l ++ "\x0d\n"))

/-- Handler of `GET /admin/events/<id>/csv` (admin-guarded): unknown event id gives
an error notice and a redirect; otherwise the response is the header row
plus one row per registration of the event ordered by `created_at`
ascending, offered as `"<title> guests.csv"`. -/
def export_csv (event_id : Nat) : Session → Store → Store × Outcome :=
  admin_required (fun sess st =>
    match findEvent st event_id with
    | none => (st, .ok (flash sess "Event not found." "error") .redirectAdmin)
    | some event =>
      let regs := orderByCreatedAt (st.registrations.filter (fun r => r.event_id == event_id))
      (st, .ok sess (.csvDownload (event.title ++ " guests.csv")
        (csvHeader :: regs.map csvRegRow))))

/-- Form data of the post create/update routes. -/
structure PostForm where
  title : Option String
  body : Option String
  event_id : Option String
deriving Repr, DecidableEq

/-- Python `int(event_id) if event_id else None`: a blank field is NULL, a
non-blank field is parsed and may raise (`none` here is the raise). -/
def parsePostEventId (s : String) : Option (Option Int) :=
  if s = "" then some none
  else
    match pyIntOfString s with
    | none => none
    | some n => some (some n)

/-- Handler of `POST /admin/posts` (admin-guarded): requires non-empty title and
body after stripping; blank event_id is stored as NULL. -/
def create_post (f : PostForm) : Session → Store → Store × Outcome :=
  admin_required (fun sess st =>
    let title := pyStrip (f.title.getD "")
    let body := pyStrip (f.body.getD "")
    let event_id := pyStrip (f.event_id.getD "")
    if title = "" ∨ body = "" then
      (st, .ok (flash sess "Title and body are required." "error") .redirectAdmin)
    else
      match parsePostEventId event_id with
      | none => (st, .uncaught)
      | some eid =>
        ({ st with
            posts := st.posts ++ [{ id := st.nextPostId, title := title, body := body
                                    event_id := eid, created_at := st.clock }]
            nextPostId := st.nextPostId + 1
            clock := st.clock + 1 },
         .ok (flash sess "Post created." "success") .redirectAdmin))

/-- Handler of `POST /admin/posts/<id>` (admin-guarded): overwrite title/body/event
reference with no required-field check. -/
def update_post (post_id : Nat) (f : PostForm) : Session → Store → Store × Outcome :=
  admin_required (fun sess st =>
    let title := pyStrip (f.title.getD "")
    let body := pyStrip (f.body.getD "")
    let event_id := pyStrip (f.event_id.getD "")
    match parsePostEventId event_id with
    | none => (st, .uncaught)
    | some eid =>
      ({ st with
          posts := st.posts.map (fun p =>
            if p.id == post_id then
              { p with title := title, body := body, event_id := eid }
            else p) },
       .ok (flash sess "Post updated." "success") .redirectAdmin))

/-- Handler of `POST /admin/posts/<id>/delete` (admin-guarded). -/
def delete_post (post_id : Nat) : Session → Store → Store × Outcome :=
  admin_required (fun sess st =>
    ({ st with posts := st.posts.filter (fun p => !(p.id == post_id)) },
     .ok (flash sess "Post deleted." "success") .redirectAdmin))

/-- The admin-only operations of the app, with their route arguments. -/
inductive AdminRequest where
  | createEvent (f : EventForm)
  | updateEvent (event_id : Nat) (f : EventForm)
  | deleteEvent (event_id : Nat)
  | updateRegistration (reg_id : Nat) (f : RegUpdateForm)
  | deleteRegistration (reg_id : Nat)
  | exportCsv (event_id : Nat)
  | createPost (f : PostForm)
  | updatePost (post_id : Nat) (f : PostForm)
  | deletePost (post_id : Nat)
  | logout
deriving Repr

/-- Route an admin-only request to its (guarded) handler. -/
def dispatch : AdminRequest → Session → Store → Store × Outcome
  | .createEvent f => create_event f
  | .updateEvent eid f => update_event eid f
  | .deleteEvent eid => delete_event eid
  | .updateRegistration rid f => update_registration rid f
  | .deleteRegistration rid => delete_registration rid
  | .exportCsv eid => export_csv eid
  | .createPost f => create_post f
  | .updatePost pid f => update_post pid f
  | .deletePost pid => delete_post pid
  | .logout => admin_logout

/-! ## Shared lemmas -/

/-- An unauthenticated session is redirected by the guard of every
admin-only route, with the store and session untouched. -/
theorem dispatch_not_admin (r : AdminRequest) (sess : Session) (st : Store)
    (h : sess.admin = false) : dispatch r sess st = (st, .ok sess .redirectAdmin) := by
  cases r <;>
    simp [dispatch, create_event, update_event, delete_event, update_registration,
      delete_registration, export_csv, create_post, update_post, delete_post,
      admin_logout, admin_required, h]

/-- The event produced by the minimal-date fold is a member of the list
(or was already the accumulator). -/
theorem foldl_nextEventStep_mem (l : List Event) (acc : Option Event) (e : Event)
    (h : l.foldl nextEventStep acc = some e) : e ∈ l ∨ acc = some e := by
  induction l generalizing acc with
  | nil => exact Or.inr h
  | cons x xs ih =>
    rcases ih (nextEventStep acc x) h with h' | h'
    · exact Or.inl (List.mem_cons_of_mem _ h')
    · cases acc with
      | none =>
        simp [nextEventStep] at h'
        exact Or.inl (h' ▸ List.mem_cons_self x xs)
      | some b =>
        by_cases hd : textLt x.date b.date = true
        · simp [nextEventStep, hd] at h'
          exact Or.inl (h' ▸ List.mem_cons_self x xs)
        · simp [nextEventStep, hd] at h'
          exact Or.inr (by rw [h'])

/-- The next upcoming event is one of the stored events. -/
theorem get_next_event_mem (st : Store) (today : String) (e : Event)
    (h : get_next_event st today = some e) : e ∈ st.events := by
  rcases foldl_nextEventStep_mem _ _ _ h with h' | h'
  · exact List.mem_of_mem_filter h'
  · cases h'

/-- Guest-count sums split over list concatenation. -/
theorem regCount_append (a b : List Registration) (eid : Nat) :
    regCount (a ++ b) eid = regCount a eid + regCount b eid := by
  simp [regCount, List.filter_append]

/-- Guest-count sum of a single registration. -/
theorem regCount_singleton (r : Registration) (eid : Nat) :
    regCount [r] eid = if r.event_id = eid then r.num_guests else 0 := by
  by_cases h : r.event_id = eid <;> simp [regCount, List.filter_cons, h]

/-- The capacity invariant of the data model: for every stored event,
the summed guest counts of its registrations stay within its capacity. -/
def capacityInvariant (st : Store) : Prop :=
  ∀ e ∈ st.events, get_registration_count st e.id ≤ e.capacity

instance (st : Store) : Decidable (capacityInvariant st) :=
  inferInstanceAs (Decidable (∀ e ∈ st.events, get_registration_count st e.id ≤ e.capacity))

/-- Inserting one registration grows the sorted list by one. -/
theorem length_insertByTime (r : Registration) (l : List Registration) :
    (insertByTime r l).length = l.length + 1 := by
  induction l with
  | nil => rfl
  | cons x xs ih =>
    simp only [insertByTime]
    split
    · simp [ih]
    · simp

/-- Sorting by creation time preserves the number of rows. -/
theorem length_orderByCreatedAt (l : List Registration) :
    (orderByCreatedAt l).length = l.length := by
  induction l with
  | nil => rfl
  | cons x xs ih =>
    simp only [orderByCreatedAt, List.foldr] at *
    rw [length_insertByTime, ih]
    rfl

/-! ## Claim theorems -/

/-- C3: every admin-only operation (event create/update/delete,
registration update/delete, CSV export, post create/update/delete,
logout) invoked by a session without the administrator flag redirects to
the admin landing page and leaves the store (and session) completely
unchanged: no insert, update or delete is executed. -/
theorem admin_guard_blocks_all_operations (r : AdminRequest) (sess : Session) (st : Store)
    (h : sess.admin = false) :
    dispatch r sess st = (st, .ok sess .redirectAdmin) :=
  dispatch_not_admin r sess st h

/-- Witness for C3 at a concrete unauthenticated session and store. -/
theorem admin_guard_blocks_all_operations_witness :
    dispatch (.deleteEvent 1) { admin := false, flashes := [] }
        { events := [], registrations := [], posts := [],
          nextEventId := 1, nextRegId := 1, nextPostId := 1, clock := 0 } =
      ({ events := [], registrations := [], posts := [],
         nextEventId := 1, nextRegId := 1, nextPostId := 1, clock := 0 },
       .ok { admin := false, flashes := [] } .redirectAdmin) :=
  admin_guard_blocks_all_operations (.deleteEvent 1) _ _ rfl

/-- C5: a submitted password equal to the configured administrator
secret sets the session's administrator flag and queues a success
notice; any other string leaves the flag as it was (so an unauthenticated
session stays unauthenticated) and queues an error notice, and if the
session was unauthenticated, every admin-gated route afterwards
redirects without executing. -/
theorem admin_login_contract (pwd : String) (f : LoginForm) (sess : Session) (st : Store) :
    (f.password.getD "" = pwd →
      admin_login pwd f sess st =
        (st, .ok { admin := true, flashes := sess.flashes ++ [("Logged in.", "success")] }
          .redirectAdmin))
    ∧ (f.password.getD "" ≠ pwd →
      admin_login pwd f sess st =
        (st, .ok { admin := sess.admin,
                   flashes := sess.flashes ++ [("Incorrect password.", "error")] }
          .redirectAdmin)
      ∧ (sess.admin = false → ∀ (r : AdminRequest) (st' : Store),
          dispatch r { admin := sess.admin,
                       flashes := sess.flashes ++ [("Incorrect password.", "error")] } st' =
            (st', .ok { admin := sess.admin,
                        flashes := sess.flashes ++ [("Incorrect password.", "error")] }
              .redirectAdmin))) := by
  constructor
  · intro h
    simp [admin_login, h, flash]
  · intro h
    refine ⟨by simp [admin_login, h, flash], ?_⟩
    intro hadm r st'
    exact dispatch_not_admin r _ st' hadm

/-- Witness for C5: the correct password logs in, a wrong one does not,
and after a wrong attempt the delete-event route only redirects. -/
theorem admin_login_contract_witness :
    admin_login "admin" { password := some "admin" } { admin := false, flashes := [] }
        { events := [], registrations := [], posts := [],
          nextEventId := 1, nextRegId := 1, nextPostId := 1, clock := 0 } =
      ({ events := [], registrations := [], posts := [],
         nextEventId := 1, nextRegId := 1, nextPostId := 1, clock := 0 },
       .ok { admin := true, flashes := [("Logged in.", "success")] } .redirectAdmin)
    ∧ admin_login "admin" { password := some "guess" } { admin := false, flashes := [] }
        { events := [], registrations := [], posts := [],
          nextEventId := 1, nextRegId := 1, nextPostId := 1, clock := 0 } =
      ({ events := [], registrations := [], posts := [],
         nextEventId := 1, nextRegId := 1, nextPostId := 1, clock := 0 },
       .ok { admin := false, flashes := [("Incorrect password.", "error")] } .redirectAdmin)
    ∧ dispatch (.deleteEvent 1) { admin := false, flashes := [("Incorrect password.", "error")] }
        { events := [], registrations := [], posts := [],
          nextEventId := 1, nextRegId := 1, nextPostId := 1, clock := 0 } =
      ({ events := [], registrations := [], posts := [],
         nextEventId := 1, nextRegId := 1, nextPostId := 1, clock := 0 },
       .ok { admin := false, flashes := [("Incorrect password.", "error")] } .redirectAdmin) := by
  refine ⟨(admin_login_contract "admin" { password := some "admin" } _ _).1 (by decide), ?_, ?_⟩
  · exact ((admin_login_contract "admin" { password := some "guess" } ⟨false, []⟩ _).2
      (by decide)).1
  · exact (((admin_login_contract "admin" { password := some "guess" } ⟨false, []⟩
      { events := [], registrations := [], posts := [],
        nextEventId := 1, nextRegId := 1, nextPostId := 1, clock := 0 }).2
      (by decide)).2 rfl (.deleteEvent 1) _)

/-- C6: deleting an event removes exactly that event row and exactly the
registration rows referencing it, while registrations of other events
and all posts (including posts referencing the deleted event) are
untouched; deleting a post removes only that post row and touches no
event or registration. -/
theorem delete_event_and_post_frame (sess : Session) (st : Store) (event_id post_id : Nat)
    (h : sess.admin = true) :
    ((delete_event event_id sess st).1.events = st.events.filter (fun e => !(e.id == event_id))
      ∧ (delete_event event_id sess st).1.registrations =
          st.registrations.filter (fun r => !(r.event_id == event_id))
      ∧ (delete_event event_id sess st).1.posts = st.posts)
    ∧ ((delete_post post_id sess st).1.posts = st.posts.filter (fun p => !(p.id == post_id))
      ∧ (delete_post post_id sess st).1.events = st.events
      ∧ (delete_post post_id sess st).1.registrations = st.registrations) := by
  simp [delete_event, delete_post, admin_required, h]

/-- Witness for C6: deleting event 1 removes it and its registration but
keeps event 2's registration and the post referencing event 1; deleting
post 1 removes only that post. -/
theorem delete_event_and_post_frame_witness :
    ((delete_event 1 { admin := true, flashes := [] }
        { events := [{ id := 1, title := "A", date := "2026-03-22", time := none,
                       location := "L", menu_description := "M", capacity := 14,
                       charity := none, charity_url := none, suggested_price := none },
                     { id := 2, title := "B", date := "2026-04-22", time := none,
                       location := "L", menu_description := "M", capacity := 10,
                       charity := none, charity_url := none, suggested_price := none }],
          registrations := [{ id := 1, event_id := 1, name := "Ann", phone := "555",
                              dietary_restrictions := "", num_guests := 2, created_at := 0 },
                            { id := 2, event_id := 2, name := "Bo", phone := "556",
                              dietary_restrictions := "", num_guests := 1, created_at := 1 }],
          posts := [{ id := 1, title := "P", body := "B", event_id := some 1, created_at := 0 }],
          nextEventId := 3, nextRegId := 3, nextPostId := 2, clock := 2 }).1.events.map Event.id
      = [2])
    ∧ ((delete_event 1 { admin := true, flashes := [] }
        { events := [{ id := 1, title := "A", date := "2026-03-22", time := none,
                       location := "L", menu_description := "M", capacity := 14,
                       charity := none, charity_url := none, suggested_price := none },
                     { id := 2, title := "B", date := "2026-04-22", time := none,
                       location := "L", menu_description := "M", capacity := 10,
                       charity := none, charity_url := none, suggested_price := none }],
          registrations := [{ id := 1, event_id := 1, name := "Ann", phone := "555",
                              dietary_restrictions := "", num_guests := 2, created_at := 0 },
                            { id := 2, event_id := 2, name := "Bo", phone := "556",
                              dietary_restrictions := "", num_guests := 1, created_at := 1 }],
          posts := [{ id := 1, title := "P", body := "B", event_id := some 1, created_at := 0 }],
          nextEventId := 3, nextRegId := 3, nextPostId := 2, clock := 2 }).1.posts.map Post.id
      = [1]) := by
  have h := delete_event_and_post_frame { admin := true, flashes := [] }
    { events := [{ id := 1, title := "A", date := "2026-03-22", time := none,
                   location := "L", menu_description := "M", capacity := 14,
                   charity := none, charity_url := none, suggested_price := none },
                 { id := 2, title := "B", date := "2026-04-22", time := none,
                   location := "L", menu_description := "M", capacity := 10,
                   charity := none, charity_url := none, suggested_price := none }],
      registrations := [{ id := 1, event_id := 1, name := "Ann", phone := "555",
                          dietary_restrictions := "", num_guests := 2, created_at := 0 },
                        { id := 2, event_id := 2, name := "Bo", phone := "556",
                          dietary_restrictions := "", num_guests := 1, created_at := 1 }],
      posts := [{ id := 1, title := "P", body := "B", event_id := some 1, created_at := 0 }],
      nextEventId := 3, nextRegId := 3, nextPostId := 2, clock := 2 } 1 1 rfl
  refine ⟨?_, ?_⟩
  · rw [h.1.1]; decide
  · rw [h.1.2.2]; decide

/-- C9 counterexample: the logout route is wrapped in the admin guard,
so a session without the administrator flag (here one still holding a
queued notice) is redirected with its state intact — the clearing is not
unconditional. -/
theorem admin_logout_not_unconditional :
    (admin_logout { admin := false, flashes := [("stale notice", "error")] }
        { events := [], registrations := [], posts := [],
          nextEventId := 1, nextRegId := 1, nextPostId := 1, clock := 0 }).2 =
      .ok { admin := false, flashes := [("stale notice", "error")] } .redirectAdmin
    ∧ ({ admin := false, flashes := [("stale notice", "error")] } : Session).flashes ≠ [] := by
  constructor
  · simp [admin_logout, admin_required]
  · decide

/-- C9 (amended): for a session that carries the administrator flag,
logout clears all session state (the flag and any queued flashes, then
queues the one success notice) and redirects; afterwards every
admin-gated route redirects without executing. A session without the
flag is redirected by the guard without any clearing. -/
theorem admin_logout_clears_authenticated (sess : Session) (st : Store)
    (h : sess.admin = true) :
    admin_logout sess st =
      (st, .ok { admin := false, flashes := [("Logged out.", "success")] } .redirectAdmin)
    ∧ ∀ (r : AdminRequest) (st' : Store),
        dispatch r { admin := false, flashes := [("Logged out.", "success")] } st' =
          (st', .ok { admin := false, flashes := [("Logged out.", "success")] }
            .redirectAdmin) := by
  refine ⟨by simp [admin_logout, admin_required, h, flash], ?_⟩
  intro r st'
  exact dispatch_not_admin r _ st' rfl

/-- Witness for C9 (amended): a logged-in session with a stale notice is
fully cleared by logout, and the delete-event route then only redirects. -/
theorem admin_logout_clears_authenticated_witness :
    admin_logout { admin := true, flashes := [("old", "success")] }
        { events := [], registrations := [], posts := [],
          nextEventId := 1, nextRegId := 1, nextPostId := 1, clock := 0 } =
      ({ events := [], registrations := [], posts := [],
         nextEventId := 1, nextRegId := 1, nextPostId := 1, clock := 0 },
       .ok { admin := false, flashes := [("Logged out.", "success")] } .redirectAdmin)
    ∧ dispatch (.deleteEvent 1) { admin := false, flashes := [("Logged out.", "success")] }
        { events := [], registrations := [], posts := [],
          nextEventId := 1, nextRegId := 1, nextPostId := 1, clock := 0 } =
      ({ events := [], registrations := [], posts := [],
         nextEventId := 1, nextRegId := 1, nextPostId := 1, clock := 0 },
       .ok { admin := false, flashes := [("Logged out.", "success")] } .redirectAdmin) := by
  have h := admin_logout_clears_authenticated { admin := true, flashes := [("old", "success")] }
    { events := [], registrations := [], posts := [],
      nextEventId := 1, nextRegId := 1, nextPostId := 1, clock := 0 } rfl
  exact ⟨h.1, h.2 (.deleteEvent 1) _⟩

/-- C1: when an upcoming event exists, the trimmed name and phone are
non-empty and the parsed guest count is at least 1, then: a count within
the freshly computed spots_left inserts exactly one registration row
(the event's id, the trimmed fields, the count, a fresh id and
timestamp) and redirects to the confirmation view keyed by the new row's
id; a count exceeding spots_left queues the error notice
"Not enough spots remaining.", redirects home and inserts nothing. -/
theorem register_contract (sess : Session) (st : Store) (f : RegisterForm)
    (today : String) (event : Event) (g : Int)
    (hev : get_next_event st today = some event)
    (hg : parseGuests f = some g)
    (hname : pyStrip (f.name.getD "") ≠ "")
    (hphone : pyStrip (f.phone.getD "") ≠ "")
    (h1 : 1 ≤ g) :
    (g ≤ event.capacity - get_registration_count st event.id →
      register sess st f today =
        ({ st with
            registrations := st.registrations ++
              [{ id := st.nextRegId, event_id := event.id
                 name := pyStrip (f.name.getD ""), phone := pyStrip (f.phone.getD "")
                 dietary_restrictions := pyStrip (f.dietary_restrictions.getD "")
                 num_guests := g, created_at := st.clock }]
            nextRegId := st.nextRegId + 1
            clock := st.clock + 1 },
         .ok sess (.redirectConfirmation st.nextRegId)))
    ∧ (event.capacity - get_registration_count st event.id < g →
      register sess st f today =
        (st, .ok (flash sess "Not enough spots remaining." "error") .redirectIndex)) := by
  constructor
  · intro hcap
    simp only [register, hev, hg]
    rw [if_neg (by simp [hname, hphone]), if_neg (by omega), if_neg (by omega)]
  · intro hcap
    simp only [register, hev, hg]
    rw [if_neg (by simp [hname, hphone]), if_neg (by omega), if_pos (by omega)]

/-- Witness for C1 on the spec's scenario: capacity 14 with 9 spots
left after a 5-guest registration; registering 10 more guests is
rejected with "Not enough spots remaining." and nothing is inserted,
while registering 9 succeeds and redirects to confirmation. -/
theorem register_contract_witness :
    register { admin := false, flashes := [] }
        { events := [{ id := 1, title := "March Supper", date := "2026-03-22", time := none,
                       location := "L", menu_description := "M", capacity := 14,
                       charity := none, charity_url := none, suggested_price := none }],
          registrations := [{ id := 1, event_id := 1, name := "Ann", phone := "555",
                              dietary_restrictions := "", num_guests := 5, created_at := 0 }],
          posts := [], nextEventId := 2, nextRegId := 2, nextPostId := 1, clock := 1 }
        { name := some "Bo", phone := some "556", dietary_restrictions := none,
          num_guests := some "10" }
        "2026-03-01" =
      ({ events := [{ id := 1, title := "March Supper", date := "2026-03-22", time := none,
                      location := "L", menu_description := "M", capacity := 14,
                      charity := none, charity_url := none, suggested_price := none }],
         registrations := [{ id := 1, event_id := 1, name := "Ann", phone := "555",
                             dietary_restrictions := "", num_guests := 5, created_at := 0 }],
         posts := [], nextEventId := 2, nextRegId := 2, nextPostId := 1, clock := 1 },
       .ok { admin := false, flashes := [("Not enough spots remaining.", "error")] }
         .redirectIndex)
    ∧ register { admin := false, flashes := [] }
        { events := [{ id := 1, title := "March Supper", date := "2026-03-22", time := none,
                       location := "L", menu_description := "M", capacity := 14,
                       charity := none, charity_url := none, suggested_price := none }],
          registrations := [{ id := 1, event_id := 1, name := "Ann", phone := "555",
                              dietary_restrictions := "", num_guests := 5, created_at := 0 }],
          posts := [], nextEventId := 2, nextRegId := 2, nextPostId := 1, clock := 1 }
        { name := some "Bo", phone := some "556", dietary_restrictions := none,
          num_guests := some "9" }
        "2026-03-01" =
      ({ events := [{ id := 1, title := "March Supper", date := "2026-03-22", time := none,
                      location := "L", menu_description := "M", capacity := 14,
                      charity := none, charity_url := none, suggested_price := none }],
         registrations := [{ id := 1, event_id := 1, name := "Ann", phone := "555",
                             dietary_restrictions := "", num_guests := 5, created_at := 0 },
                           { id := 2, event_id := 1, name := "Bo", phone := "556",
                             dietary_restrictions := "", num_guests := 9, created_at := 1 }],
         posts := [], nextEventId := 2, nextRegId := 3, nextPostId := 1, clock := 2 },
       .ok { admin := false, flashes := [] } (.redirectConfirmation 2)) := by
  constructor
  · exact ((register_contract { admin := false, flashes := [] } _ _ "2026-03-01"
      { id := 1, title := "March Supper", date := "2026-03-22", time := none,
        location := "L", menu_description := "M", capacity := 14,
        charity := none, charity_url := none, suggested_price := none } 10
      (by decide) (by decide) (by decide) (by decide) (by decide)).2 (by decide)).trans
      (by decide)
  · exact ((register_contract { admin := false, flashes := [] } _ _ "2026-03-01"
      { id := 1, title := "March Supper", date := "2026-03-22", time := none,
        location := "L", menu_description := "M", capacity := 14,
        charity := none, charity_url := none, suggested_price := none } 9
      (by decide) (by decide) (by decide) (by decide) (by decide)).1 (by decide)).trans
      (by decide)

/-- C10: when an upcoming event exists and the num_guests form field is
present but is not a valid decimal integer string, the registration
handler dies with an uncaught exception — no notice, no redirect, no
inserted row — regardless of the name and phone fields, because the
guest count is parsed before the name/phone emptiness check. -/
theorem register_invalid_guests_uncaught (sess : Session) (st : Store) (f : RegisterForm)
    (today : String) (event : Event) (s : String)
    (hev : get_next_event st today = some event)
    (hs : f.num_guests = some s)
    (hbad : pyIntOfString s = none) :
    register sess st f today = (st, .uncaught) := by
  simp [register, hev, parseGuests, hs, hbad]

/-- Witness for C10: with an upcoming event, a blank name and the
guest-count string "abc", the handler raises instead of flashing the
name/phone validation error, and the store is unchanged. -/
theorem register_invalid_guests_uncaught_witness :
    register { admin := false, flashes := [] }
        { events := [{ id := 1, title := "March Supper", date := "2026-03-22", time := none,
                       location := "L", menu_description := "M", capacity := 14,
                       charity := none, charity_url := none, suggested_price := none }],
          registrations := [], posts := [],
          nextEventId := 2, nextRegId := 1, nextPostId := 1, clock := 0 }
        { name := some "", phone := some "", dietary_restrictions := none,
          num_guests := some "abc" }
        "2026-03-01" =
      ({ events := [{ id := 1, title := "March Supper", date := "2026-03-22", time := none,
                      location := "L", menu_description := "M", capacity := 14,
                      charity := none, charity_url := none, suggested_price := none }],
         registrations := [], posts := [],
         nextEventId := 2, nextRegId := 1, nextPostId := 1, clock := 0 },
       .uncaught) :=
  register_invalid_guests_uncaught { admin := false, flashes := [] } _
    { name := some "", phone := some "", dietary_restrictions := none,
      num_guests := some "abc" }
    "2026-03-01"
    { id := 1, title := "March Supper", date := "2026-03-22", time := none,
      location := "L", menu_description := "M", capacity := 14,
      charity := none, charity_url := none, suggested_price := none }
    "abc" (by decide) rfl (by decide)

/-- C4: spots_left is the event's capacity minus the sum of num_guests
over all registrations of that event (zero when there are none), spelled
out here directly over the store's rows; the home page renders exactly
this value for the current store, and every registration attempt decides
acceptance against exactly this value recomputed from the current store
(an otherwise valid attempt is rejected with the capacity notice
precisely when the requested count exceeds it). -/
theorem spots_left_recomputed (sess : Session) (st : Store) (today : String) (event : Event)
    (hev : get_next_event st today = some event) :
    index sess st today =
      (st, .ok sess (.renderIndex (some event)
        (some (event.capacity -
          ((st.registrations.filter (fun r => r.event_id == event.id)).map
            (fun r => r.num_guests)).sum))))
    ∧ (∀ (f : RegisterForm) (g : Int), parseGuests f = some g →
        pyStrip (f.name.getD "") ≠ "" → pyStrip (f.phone.getD "") ≠ "" → 1 ≤ g →
        ((register sess st f today).2 =
            .ok (flash sess "Not enough spots remaining." "error") .redirectIndex
          ↔ event.capacity -
              ((st.registrations.filter (fun r => r.event_id == event.id)).map
                (fun r => r.num_guests)).sum < g)) := by
  constructor
  · simp [index, hev, get_registration_count, regCount]
  · intro f g hg hname hphone h1
    constructor
    · intro hrej
      by_contra hcap
      have hacc :
          (register sess st f today).2 = .ok sess (.redirectConfirmation st.nextRegId) := by
        simp only [register, hev, hg]
        rw [if_neg (by simp [hname, hphone]), if_neg (by omega),
          if_neg (by simp only [get_registration_count, regCount] at *; omega)]
      rw [hacc] at hrej
      simp [flash] at hrej
    · intro hcap
      simp only [register, hev, hg]
      rw [if_neg (by simp [hname, hphone]), if_neg (by omega),
        if_pos (by simp only [get_registration_count, regCount]; omega)]

/-- Witness for C4 on the spec's scenario: capacity 14 with one 5-guest
registration renders spots_left 9, and a valid attempt for 10 guests is
rejected exactly because 9 < 10. -/
theorem spots_left_recomputed_witness :
    index { admin := false, flashes := [] }
        { events := [{ id := 1, title := "March Supper", date := "2026-03-22", time := none,
                       location := "L", menu_description := "M", capacity := 14,
                       charity := none, charity_url := none, suggested_price := none }],
          registrations := [{ id := 1, event_id := 1, name := "Ann", phone := "555",
                              dietary_restrictions := "", num_guests := 5, created_at := 0 }],
          posts := [], nextEventId := 2, nextRegId := 2, nextPostId := 1, clock := 1 }
        "2026-03-01" =
      ({ events := [{ id := 1, title := "March Supper", date := "2026-03-22", time := none,
                      location := "L", menu_description := "M", capacity := 14,
                      charity := none, charity_url := none, suggested_price := none }],
         registrations := [{ id := 1, event_id := 1, name := "Ann", phone := "555",
                             dietary_restrictions := "", num_guests := 5, created_at := 0 }],
         posts := [], nextEventId := 2, nextRegId := 2, nextPostId := 1, clock := 1 },
       .ok { admin := false, flashes := [] }
         (.renderIndex
           (some { id := 1, title := "March Supper", date := "2026-03-22", time := none,
                   location := "L", menu_description := "M", capacity := 14,
                   charity := none, charity_url := none, suggested_price := none })
           (some 9)))
    ∧ ((register { admin := false, flashes := [] }
          { events := [{ id := 1, title := "March Supper", date := "2026-03-22", time := none,
                         location := "L", menu_description := "M", capacity := 14,
                         charity := none, charity_url := none, suggested_price := none }],
            registrations := [{ id := 1, event_id := 1, name := "Ann", phone := "555",
                                dietary_restrictions := "", num_guests := 5, created_at := 0 }],
            posts := [], nextEventId := 2, nextRegId := 2, nextPostId := 1, clock := 1 }
          { name := some "Bo", phone := some "556", dietary_restrictions := none,
            num_guests := some "10" }
          "2026-03-01").2 =
        .ok (flash { admin := false, flashes := [] } "Not enough spots remaining." "error")
          .redirectIndex) := by
  have h := spots_left_recomputed { admin := false, flashes := [] }
    { events := [{ id := 1, title := "March Supper", date := "2026-03-22", time := none,
                   location := "L", menu_description := "M", capacity := 14,
                   charity := none, charity_url := none, suggested_price := none }],
      registrations := [{ id := 1, event_id := 1, name := "Ann", phone := "555",
                          dietary_restrictions := "", num_guests := 5, created_at := 0 }],
      posts := [], nextEventId := 2, nextRegId := 2, nextPostId := 1, clock := 1 }
    "2026-03-01"
    { id := 1, title := "March Supper", date := "2026-03-22", time := none,
      location := "L", menu_description := "M", capacity := 14,
      charity := none, charity_url := none, suggested_price := none }
    (by decide)
  refine ⟨h.1.trans (by decide), ?_⟩
  exact (h.2 { name := some "Bo", phone := some "556", dietary_restrictions := none,
               num_guests := some "10" } 10 (by decide) (by decide) (by decide) (by decide)).2
    (by decide)

/-- C2 counterexample: the admin registration-update route overwrites
num_guests with no re-validation against capacity, so it does not
preserve the invariant: a store satisfying it (capacity 14, 5 guests)
stops satisfying it after the admin updates the registration to 100
guests. -/
theorem capacity_invariant_broken_by_admin_update :
    capacityInvariant
      { events := [{ id := 1, title := "March Supper", date := "2026-03-22", time := none,
                     location := "L", menu_description := "M", capacity := 14,
                     charity := none, charity_url := none, suggested_price := none }],
        registrations := [{ id := 1, event_id := 1, name := "Ann", phone := "555",
                            dietary_restrictions := "", num_guests := 5, created_at := 0 }],
        posts := [], nextEventId := 2, nextRegId := 2, nextPostId := 1, clock := 1 }
    ∧ ¬ capacityInvariant
        (update_registration 1
          { name := some "Ann", phone := some "555", num_guests := some "100",
            dietary_restrictions := none }
          { admin := true, flashes := [] }
          { events := [{ id := 1, title := "March Supper", date := "2026-03-22", time := none,
                         location := "L", menu_description := "M", capacity := 14,
                         charity := none, charity_url := none, suggested_price := none }],
            registrations := [{ id := 1, event_id := 1, name := "Ann", phone := "555",
                                dietary_restrictions := "", num_guests := 5, created_at := 0 }],
            posts := [], nextEventId := 2, nextRegId := 2, nextPostId := 1, clock := 1 }).1 := by
  constructor <;> decide

/-- C2 (amended): for a store with distinct event ids, the capacity
invariant — summed guest counts never exceed capacity — is preserved by
the public registration operation executed sequentially; the admin
update routes for registrations and events re-validate nothing and can
violate it. -/
theorem register_preserves_capacity (sess : Session) (st : Store) (f : RegisterForm)
    (today : String)
    (hids : (st.events.map Event.id).Nodup)
    (hinv : capacityInvariant st) :
    capacityInvariant (register sess st f today).1 := by
  rcases hev : get_next_event st today with _ | event
  · simpa [register, hev] using hinv
  · rcases hg : parseGuests f with _ | g
    · simpa [register, hev, hg] using hinv
    · simp only [register, hev, hg]
      split_ifs with h1 h2 h3
      · exact hinv
      · exact hinv
      · exact hinv
      · intro e' he'
        simp only [get_registration_count] at *
        rw [regCount_append, regCount_singleton]
        by_cases heq : e'.id = event.id
        · have hmem : event ∈ st.events := get_next_event_mem st today event hev
          have he : e' = event :=
            List.inj_on_of_nodup_map hids he' hmem heq
          rw [he, if_pos rfl]
          dsimp only
          omega
        · have hold := hinv e' he'
          simp only [get_registration_count] at hold
          rw [if_neg (fun hc => heq hc.symm)]
          omega

/-- Witness for C2 (amended): registering 9 guests against capacity 14
with 5 already taken keeps the invariant. -/
theorem register_preserves_capacity_witness :
    capacityInvariant
      (register { admin := false, flashes := [] }
        { events := [{ id := 1, title := "March Supper", date := "2026-03-22", time := none,
                       location := "L", menu_description := "M", capacity := 14,
                       charity := none, charity_url := none, suggested_price := none }],
          registrations := [{ id := 1, event_id := 1, name := "Ann", phone := "555",
                              dietary_restrictions := "", num_guests := 5, created_at := 0 }],
          posts := [], nextEventId := 2, nextRegId := 2, nextPostId := 1, clock := 1 }
        { name := some "Bo", phone := some "556", dietary_restrictions := none,
          num_guests := some "9" }
        "2026-03-01").1 :=
  register_preserves_capacity { admin := false, flashes := [] }
    { events := [{ id := 1, title := "March Supper", date := "2026-03-22", time := none,
                   location := "L", menu_description := "M", capacity := 14,
                   charity := none, charity_url := none, suggested_price := none }],
      registrations := [{ id := 1, event_id := 1, name := "Ann", phone := "555",
                          dietary_restrictions := "", num_guests := 5, created_at := 0 }],
      posts := [], nextEventId := 2, nextRegId := 2, nextPostId := 1, clock := 1 }
    { name := some "Bo", phone := some "556", dietary_restrictions := none,
      num_guests := some "9" }
    "2026-03-01" (by decide) (by decide)

/-- C7 counterexample: event creation validates capacity by Python
truthiness (`all([...])`), not positivity, so a negative capacity is
accepted: with capacity "-3" and all text fields supplied, a row with
capacity -3 is inserted even though -3 is not a positive integer. -/
theorem create_event_accepts_negative_capacity :
    (create_event
        { title := some "Test Dinner", date := some "2026-05-01", time := none,
          location := some "Loft", menu_description := some "Soup", capacity := some "-3",
          charity := none, charity_url := none, suggested_price := none }
        { admin := true, flashes := [] }
        { events := [], registrations := [], posts := [],
          nextEventId := 1, nextRegId := 1, nextPostId := 1, clock := 0 }).1.events =
      [{ id := 1, title := "Test Dinner", date := "2026-05-01", time := none,
         location := "Loft", menu_description := "Soup", capacity := -3,
         charity := none, charity_url := none, suggested_price := none }]
    ∧ ¬ (0 < (-3 : Int)) := by
  constructor <;> decide

/-- C7 (amended): for an authenticated session and a parseable capacity
field, event creation succeeds exactly when title, date, location and
menu_description are non-empty after trimming and the capacity integer
is non-zero (negative values pass); on success the new row stores blank
optional fields as absent (`none`) and a success notice is queued; on
validation failure an error notice is queued, the request redirects to
admin, and no row is inserted. -/
theorem create_event_validation (f : EventForm) (sess : Session) (st : Store) (c : Int)
    (hadmin : sess.admin = true) (hc : parseCapacity f = some c) :
    ((pyStrip (f.title.getD "") ≠ "" ∧ pyStrip (f.date.getD "") ≠ "" ∧
      pyStrip (f.location.getD "") ≠ "" ∧ pyStrip (f.menu_description.getD "") ≠ "" ∧
      c ≠ 0) →
      create_event f sess st =
        ({ st with
            events := st.events ++
              [{ id := st.nextEventId, title := pyStrip (f.title.getD "")
                 date := pyStrip (f.date.getD ""), time := orNone (pyStrip (f.time.getD ""))
                 location := pyStrip (f.location.getD "")
                 menu_description := pyStrip (f.menu_description.getD ""), capacity := c
                 charity := orNone (pyStrip (f.charity.getD ""))
                 charity_url := orNone (pyStrip (f.charity_url.getD ""))
                 suggested_price := orNone (pyStrip (f.suggested_price.getD "")) }]
            nextEventId := st.nextEventId + 1 },
         .ok (flash sess "Event created." "success") .redirectAdmin))
    ∧ (¬(pyStrip (f.title.getD "") ≠ "" ∧ pyStrip (f.date.getD "") ≠ "" ∧
        pyStrip (f.location.getD "") ≠ "" ∧ pyStrip (f.menu_description.getD "") ≠ "" ∧
        c ≠ 0) →
      create_event f sess st =
        (st, .ok (flash sess "All fields are required." "error") .redirectAdmin)) := by
  constructor
  · intro h
    simp only [create_event, admin_required, hadmin, if_true, hc]
    rw [if_neg (by tauto)]
  · intro h
    simp only [create_event, admin_required, hadmin, if_true, hc]
    rw [if_pos (by tauto)]

/-- Witness for C7 (amended): a fully filled form with capacity "20" and
a blank time inserts one row with `time` absent; the same form with a
blank title is rejected with the error notice and inserts nothing. -/
theorem create_event_validation_witness :
    create_event
        { title := some "June Supper", date := some "2026-06-01", time := some "",
          location := some "Loft", menu_description := some "Soup", capacity := some "20",
          charity := none, charity_url := none, suggested_price := none }
        { admin := true, flashes := [] }
        { events := [], registrations := [], posts := [],
          nextEventId := 1, nextRegId := 1, nextPostId := 1, clock := 0 } =
      ({ events := [{ id := 1, title := "June Supper", date := "2026-06-01", time := none,
                      location := "Loft", menu_description := "Soup", capacity := 20,
                      charity := none, charity_url := none, suggested_price := none }],
         registrations := [], posts := [],
         nextEventId := 2, nextRegId := 1, nextPostId := 1, clock := 0 },
       .ok { admin := true, flashes := [("Event created.", "success")] } .redirectAdmin)
    ∧ create_event
        { title := some "  ", date := some "2026-06-01", time := some "",
          location := some "Loft", menu_description := some "Soup", capacity := some "20",
          charity := none, charity_url := none, suggested_price := none }
        { admin := true, flashes := [] }
        { events := [], registrations := [], posts := [],
          nextEventId := 1, nextRegId := 1, nextPostId := 1, clock := 0 } =
      ({ events := [], registrations := [], posts := [],
         nextEventId := 1, nextRegId := 1, nextPostId := 1, clock := 0 },
       .ok { admin := true, flashes := [("All fields are required.", "error")] }
         .redirectAdmin) := by
  constructor
  · exact ((create_event_validation
      { title := some "June Supper", date := some "2026-06-01", time := some "",
        location := some "Loft", menu_description := some "Soup", capacity := some "20",
        charity := none, charity_url := none, suggested_price := none }
      { admin := true, flashes := [] }
      { events := [], registrations := [], posts := [],
        nextEventId := 1, nextRegId := 1, nextPostId := 1, clock := 0 } 20
      rfl (by decide)).1 (by decide)).trans (by decide)
  · exact ((create_event_validation
      { title := some "  ", date := some "2026-06-01", time := some "",
        location := some "Loft", menu_description := some "Soup", capacity := some "20",
        charity := none, charity_url := none, suggested_price := none }
      { admin := true, flashes := [] }
      { events := [], registrations := [], posts := [],
        nextEventId := 1, nextRegId := 1, nextPostId := 1, clock := 0 } 20
      rfl (by decide)).2 (by decide)).trans (by decide)

/-- C8: for an authenticated session, exporting an unknown event id
queues an error notice and redirects to admin; exporting an existing
event responds with a download named after the event's title whose lines
are exactly the header `Name,Phone,Guests,Dietary` followed by one data
row (name, phone, num_guests, dietary) per registration of that event in
creation-time order — `1 + n` lines for `n` registrations. -/
theorem export_csv_contract (sess : Session) (st : Store) (event_id : Nat)
    (hadmin : sess.admin = true) :
    (findEvent st event_id = none →
      export_csv event_id sess st =
        (st, .ok (flash sess "Event not found." "error") .redirectAdmin))
    ∧ (∀ e, findEvent st event_id = some e →
        export_csv event_id sess st =
          (st, .ok sess (.csvDownload (e.title ++ " guests.csv")
            (csvHeader ::
              (orderByCreatedAt (st.registrations.filter (fun r => r.event_id == event_id))).map
                csvRegRow)))
        ∧ (csvHeader ::
            (orderByCreatedAt (st.registrations.filter (fun r => r.event_id == event_id))).map
              csvRegRow).length =
          1 + (st.registrations.filter (fun r => r.event_id == event_id)).length
        ∧ csvHeader = "Name,Phone,Guests,Dietary") := by
  constructor
  · intro h
    simp [export_csv, admin_required, hadmin, h]
  · intro e he
    refine ⟨by simp [export_csv, admin_required, hadmin, he], ?_, by decide⟩
    simp [length_orderByCreatedAt, Nat.add_comm]

/-- Witness for C8 on the spec's scenario: an event with registrations
Ann (2 guests) and Bo (1 guest) exports exactly 3 lines — the header and
the two data rows in insertion order. -/
theorem export_csv_contract_witness :
    export_csv 1 { admin := true, flashes := [] }
        { events := [{ id := 1, title := "March Supper", date := "2026-03-22", time := none,
                       location := "L", menu_description := "M", capacity := 14,
                       charity := none, charity_url := none, suggested_price := none }],
          registrations := [{ id := 1, event_id := 1, name := "Ann", phone := "555-0001",
                              dietary_restrictions := "", num_guests := 2, created_at := 0 },
                            { id := 2, event_id := 1, name := "Bo", phone := "555-0002",
                              dietary_restrictions := "", num_guests := 1, created_at := 1 }],
          posts := [], nextEventId := 2, nextRegId := 3, nextPostId := 1, clock := 2 } =
      ({ events := [{ id := 1, title := "March Supper", date := "2026-03-22", time := none,
                      location := "L", menu_description := "M", capacity := 14,
                      charity := none, charity_url := none, suggested_price := none }],
         registrations := [{ id := 1, event_id := 1, name := "Ann", phone := "555-0001",
                             dietary_restrictions := "", num_guests := 2, created_at := 0 },
                           { id := 2, event_id := 1, name := "Bo", phone := "555-0002",
                             dietary_restrictions := "", num_guests := 1, created_at := 1 }],
         posts := [], nextEventId := 2, nextRegId := 3, nextPostId := 1, clock := 2 },
       .ok { admin := true, flashes := [] }
         (.csvDownload "March Supper guests.csv"
           ["Name,Phone,Guests,Dietary", "Ann,555-0001,2,", "Bo,555-0002,1,"]))
    ∧ (["Name,Phone,Guests,Dietary", "Ann,555-0001,2,", "Bo,555-0002,1,"] :
        List String).length = 3 := by
  have h := (export_csv_contract { admin := true, flashes := [] }
    { events := [{ id := 1, title := "March Supper", date := "2026-03-22", time := none,
                   location := "L", menu_description := "M", capacity := 14,
                   charity := none, charity_url := none, suggested_price := none }],
      registrations := [{ id := 1, event_id := 1, name := "Ann", phone := "555-0001",
                          dietary_restrictions := "", num_guests := 2, created_at := 0 },
                        { id := 2, event_id := 1, name := "Bo", phone := "555-0002",
                          dietary_restrictions := "", num_guests := 1, created_at := 1 }],
      posts := [], nextEventId := 2, nextRegId := 3, nextPostId := 1, clock := 2 } 1 rfl).2
    { id := 1, title := "March Supper", date := "2026-03-22", time := none,
      location := "L", menu_description := "M", capacity := 14,
      charity := none, charity_url := none, suggested_price := none }
    (by decide)
  exact ⟨h.1.trans (by decide), by decide⟩

end SupperClub
